import Mathlib

/-!
Shallow embedding of the scrollytelling slide-to-map synchronization engine
(`js/index.js` entry script plus the `SlideDeck` module).

JavaScript numbers are modelled as `ℚ` (the code only compares, adds and
scales them), the current slide index as `ℤ` (it is incremented and
decremented past both ends before wrap-around checks), property-bag values as
a small `JSVal` type capturing JavaScript truthiness, and the asynchronous
dataset fetch as an `Except` value supplied by the environment.  Commands sent
to the external Leaflet widget (overlay contents, viewport target, legend
control) are recorded in an explicit `DeckState`.
-/

namespace StoryMap

/-- A JavaScript value as it can appear in a feature's `properties` mapping:
`undefined`, a number, or a string. -/
inductive JSVal where
  | undef : JSVal
  | num : ℚ → JSVal
  | str : String → JSVal
  deriving DecidableEq

/-- JavaScript truthiness for the values we model: `undefined`, `0` and the
empty string are falsy. -/
def JSVal.truthy : JSVal → Bool
  | .undef => false
  | .num q => q ≠ 0
  | .str s => s ≠ ""

/-- How a value renders inside a template literal.  Number formatting does not
follow JavaScript exactly; only its use on truthy values matters here. -/
def JSVal.render : JSVal → String
  | .undef => "undefined"
  | .num q => toString q
  | .str s => s

/-- The JavaScript `v || d` idiom applied to a property value and a string
default: the default is substituted whenever the value is falsy. -/
def jsOr (v : JSVal) (d : String) : String :=
  if v.truthy then v.render else d

/-- `props.magnitudo || d` where the magnitude is a number or absent
(`undefined`): falsy exactly when absent or zero. -/
def jsOrMag : Option ℚ → String → String
  | some q, d => if q = 0 then d else toString q
  | none, d => d

/-- The `properties` mapping of one GeoJSON feature (fields per the data
interface: `label`, `place`, `magnitudo`, `depth`, `date`, `state`).  The
magnitude is numeric when present. -/
structure Props where
  label : JSVal
  place : JSVal
  magnitudo : Option ℚ
  depth : JSVal
  date : JSVal
  state : JSVal
  deriving DecidableEq

/-- A GeoJSON feature; `properties` may be absent altogether. -/
structure Feature where
  properties : Option Props
  deriving DecidableEq

/-- A GeoJSON top-level `bbox: [west, south, east, north]`. -/
structure Bbox where
  west : ℚ
  south : ℚ
  east : ℚ
  north : ℚ
  deriving DecidableEq

/-- A FeatureCollection document: ordered features plus an optional explicit
bounding box. -/
structure FeatureCollection where
  features : List Feature
  bbox : Option Bbox
  deriving DecidableEq

/-- The Leaflet circle-marker style record returned by `pointStyle`. -/
structure PointStyle where
  radius : ℚ
  fillColor : String
  color : String
  weight : ℚ
  opacity : ℚ
  fillOpacity : ℚ
  deriving DecidableEq

/-- `pointStyle(feature)`: magnitude-based coloring.  `mag` is the feature's
`magnitudo` when `feature.properties` exists and the property is not
`undefined`, otherwise `null`; the fill color is chosen by first-match-wins
thresholds checked from the highest down. -/
def pointStyle (feature : Feature) : PointStyle :=
  let mag : Option ℚ :=
    match feature.properties with
    | some props => props.magnitudo
    | none => none
  let fillColor : String :=
    match mag with
    | none => "#ffefcf"
    | some m =>
      if m ≥ 9 then "#da2d2d"
      else if m ≥ 8 then "#ff7a00"
      else if m ≥ 7 then "#f7fd04"
      else "#ffefcf"
  { radius := 2
    fillColor := fillColor
    color := "#000"
    weight := 0
    opacity := 1
    fillOpacity := 8/10 }

/-- Replace the first occurrence of the character `c` (JavaScript
`String.prototype.replace` with a string pattern replaces only the first
match). -/
def replaceFirstAux (c : Char) (r : List Char) : List Char → List Char
  | [] => []
  | x :: xs => if x = c then r ++ xs else x :: replaceFirstAux c r xs

/-- `s.replace(c, r)` for a one-character pattern: first occurrence only. -/
def replaceFirst (s : String) (c : Char) (r : String) : String :=
  ⟨replaceFirstAux c r.data s.data⟩

/-- The default `onEachFeature` popup content (the template literal's
indentation and line breaks are omitted as presentation-only; the visible text
and `||` fallbacks are kept exactly). -/
def popupContent (props : Props) : String :=
  "<b>" ++ jsOr props.place "Unknown Location" ++ "</b><br>" ++
  "Magnitude: " ++ jsOrMag props.magnitudo "N/A" ++ "<br>" ++
  "Depth: " ++ jsOr props.depth "N/A" ++ " km<br>" ++
  "Date: " ++ replaceFirst (replaceFirst (jsOr props.date "N/A") 'T' " ") 'Z' "" ++ "<br>" ++
  "Country/Region: " ++ jsOr props.state "N/A"

/-- One slide element: its stable string id, DOM top offset, the
`showpopups` flag, and the `hidden` CSS-class flag mutated via `classList`. -/
structure Slide where
  id : String
  offsetTop : ℚ
  showpopups : Bool
  hidden : Bool
  deriving DecidableEq

/-- Run-time failures observable from the slide-sync pipeline: a rejected
fetch / JSON decode (the spec's FetchError), or the TypeError thrown when a
property of `undefined` is accessed (e.g. `slides[i].id` out of range). -/
inductive JsError where
  | fetchError : JsError
  | typeError : JsError
  deriving DecidableEq

/-- An `L.latLngBounds` made of two corners. -/
structure Bounds where
  corner1lat : ℚ
  corner1lng : ℚ
  corner2lat : ℚ
  corner2lng : ℚ
  deriving DecidableEq

/-- `boundsFromBbox`: `L.latLngBounds(L.latLng(south, west), L.latLng(north, east))`. -/
def boundsFromBbox (bbox : Bbox) : Bounds :=
  { corner1lat := bbox.south
    corner1lng := bbox.west
    corner2lat := bbox.north
    corner2lng := bbox.east }

/-- The bounds argument passed to `map.flyToBounds`: either the bounds built
from the collection's explicit `bbox`, or the rendered layer's own bounds
(computed by the external widget from the layer's features). -/
inductive ViewportTarget where
  | bboxBounds : Bounds → ViewportTarget
  | layerBounds : List Feature → ViewportTarget
  deriving DecidableEq

/-- A command issued to the Leaflet legend control. -/
inductive LegendAction where
  | addTo : LegendAction
  | removeControl : LegendAction
  deriving DecidableEq

/-- The observable state owned by the `SlideDeck` orchestrator: the slide
elements, the current slide index (a JavaScript number, so `ℤ`), the features
currently held by the `dataLayer` group, the last commanded viewport target,
and whether the legend control is on the map. -/
structure DeckState where
  slides : List Slide
  currentSlideIndex : ℤ
  overlay : List Feature
  viewport : Option ViewportTarget
  legendShown : Bool
  deriving DecidableEq

/-- `this.dataLayer.clearLayers()`: removes every feature from the group. -/
def clearLayers (dataLayer : List Feature) : List Feature := []

/-- `updateDataLayer(data, options)`: clears the group, then adds a GeoJSON
layer built from `data`.  The `options` (style / onEachFeature callbacks)
configure per-feature presentation on the external widget and do not change
which features the group holds, so they do not appear here. -/
def updateDataLayer (dataLayer : List Feature) (data : FeatureCollection) :
    List Feature :=
  clearLayers dataLayer ++ data.features

/-- `hideAllSlides()`: adds the `hidden` class to every slide element. -/
def hideAllSlides (slides : List Slide) : List Slide :=
  slides.map fun s => { s with hidden := true }

/-- `this.map.hasLayer(this.legend)`: Leaflet's `Map.hasLayer` looks the
argument up in the map's `_layers` registry, which only `addLayer` populates.
The legend is an `L.control`, and `Control.addTo` installs a DOM container
without ever registering in `_layers`, so for the legend this check is
constantly `false` — whether or not the control is currently on the map. -/
def legendHasLayer : Bool := false

/-- The legend block at the end of `syncMapToSlide`.  The intent of the
guards is visible in the code, but both test `map.hasLayer(this.legend)`
(`legendHasLayer`), which is constantly `false` for a control: the title
branch therefore re-issues `legend.addTo(map)` on every title sync, and the
`removeControl` branch is dead.  `legendShown` is the control's actual
on-map status; the function returns its new value and the commands sent. -/
def syncLegend (slideId : String) (legendShown : Bool) :
    Bool × List LegendAction :=
  if slideId = "title-slide" then
    if legendHasLayer = false then (true, [.addTo]) else (legendShown, [])
  else
    if legendHasLayer = true then (false, [.removeControl]) else (legendShown, [])

/-- `syncMapToSlide(slide)`: await the slide's FeatureCollection (the awaited
fetch outcome is passed in as `fetched`; a rejection propagates before
anything else runs), replace the data layer, command a viewport transition to
the collection's `bbox` bounds or the layer's own bounds, and sync the
legend.  The one-shot `moveend` tooltip-reveal handler only talks to the
external widget and is outside the recorded state. -/
def syncMapToSlide (st : DeckState) (slide : Slide)
    (fetched : Except JsError FeatureCollection) :
    Except JsError (DeckState × List LegendAction) := do
  let collection ← fetched
  let layer := updateDataLayer st.overlay collection
  let target : ViewportTarget :=
    match collection.bbox with
    | some bbox => .bboxBounds (boundsFromBbox bbox)
    | none => .layerBounds layer
  let legendResult := syncLegend slide.id st.legendShown
  pure ({ st with
            overlay := layer
            viewport := some target
            legendShown := legendResult.1 },
        legendResult.2)

/-- `this.slides[i]`: `undefined` (here `none`) outside `0 ≤ i < length`. -/
def getSlideAt (slides : List Slide) (i : ℤ) : Option Slide :=
  if 0 ≤ i then slides.get? i.toNat else none

/-- `syncMapToCurrentSlide()`: look up the current slide and start
`syncMapToSlide` on it.  The returned promise is not awaited by any caller, so
a failure never unwinds the caller's state: it is reported as the second
component while the state keeps its pre-sync value.  An out-of-range index
makes `slide.id` throw a TypeError inside the async call. -/
def syncMapToCurrentSlide (st : DeckState)
    (fetched : Except JsError FeatureCollection) : DeckState × Option JsError :=
  match getSlideAt st.slides st.currentSlideIndex with
  | none => (st, some .typeError)
  | some slide =>
    match syncMapToSlide st slide fetched with
    | .error e => (st, some e)
    | .ok result => (result.1, none)

/-- The index update of `goNextSlide`: increment, reset to `0` when the
incremented value equals `slides.length`. -/
def goNextIndex (n i : ℤ) : ℤ :=
  let j := i + 1
  if j = n then 0 else j

/-- The index update of `goPrevSlide`: decrement, reset to `slides.length - 1`
when the decremented value is negative. -/
def goPrevIndex (n i : ℤ) : ℤ :=
  let j := i - 1
  if j < 0 then n - 1 else j

/-- `goNextSlide()`: advance the index (with wrap-around) and show the
corresponding slide. -/
def goNextSlide (st : DeckState)
    (fetched : Except JsError FeatureCollection) : DeckState × Option JsError :=
  syncMapToCurrentSlide
    { st with currentSlideIndex :=
        goNextIndex (st.slides.length : ℤ) st.currentSlideIndex }
    fetched

/-- `goPrevSlide()`: decrement the index (with wrap-around) and show the
corresponding slide. -/
def goPrevSlide (st : DeckState)
    (fetched : Except JsError FeatureCollection) : DeckState × Option JsError :=
  syncMapToCurrentSlide
    { st with currentSlideIndex :=
        goPrevIndex (st.slides.length : ℤ) st.currentSlideIndex }
    fetched

/-- The scan loop of `calcCurrentSlideIndex`: the first position whose
`slides[i].offsetTop - scrollPos + windowHeight * 0.7` is nonnegative, or the
length of the list when the loop runs off the end. -/
def calcIndexAux (scrollPos windowHeight : ℚ) : List Slide → Nat
  | [] => 0
  | s :: rest =>
    if s.offsetTop - scrollPos + windowHeight * (7/10) ≥ 0 then 0
    else calcIndexAux scrollPos windowHeight rest + 1

/-- `calcCurrentSlideIndex()`: compute `scrollPos` from the page scroll and
the container offset, scan for the slide index, and when it differs from the
current one store it and start `syncMapToCurrentSlide`. -/
def calcCurrentSlideIndex (st : DeckState)
    (scrollY containerOffsetTop innerHeight : ℚ)
    (fetched : Except JsError FeatureCollection) : DeckState × Option JsError :=
  let scrollPos := scrollY - containerOffsetTop
  let i := calcIndexAux scrollPos innerHeight st.slides
  if (i : ℤ) ≠ st.currentSlideIndex then
    syncMapToCurrentSlide { st with currentSlideIndex := (i : ℤ) } fetched
  else
    (st, none)

/-- Repeated `goNextSlide()` calls, each awaiting its own fetch outcome. -/
def runGoNext : List (Except JsError FeatureCollection) → DeckState → DeckState
  | [], st => st
  | f :: fs, st => runGoNext fs (goNextSlide st f).1

/-! ### Concrete sample data, used by witnesses and counterexamples -/

/-- The sentinel title slide at the top of the page. -/
def titleSlide : Slide :=
  { id := "title-slide", offsetTop := 0, showpopups := false, hidden := false }

/-- A second slide further down the page. -/
def secondSlide : Slide :=
  { id := "second-slide", offsetTop := 600, showpopups := false, hidden := false }

/-- A third slide, with permanent-tooltip reveal requested. -/
def thirdSlide : Slide :=
  { id := "third-slide", offsetTop := 1200, showpopups := true, hidden := false }

/-- A feature whose properties are absent. -/
def bareFeature : Feature := { properties := none }

/-- A fully populated properties record. -/
def sampleProps : Props :=
  { label := .str "Quake A"
    place := .str "Valdivia"
    magnitudo := some (19/2)
    depth := .num 33
    date := .str "1960-05-22T19:11:14Z"
    state := .str "Chile" }

/-- A feature carrying `sampleProps`. -/
def sampleFeature : Feature := { properties := some sampleProps }

/-- An empty FeatureCollection with no explicit bbox. -/
def emptyCollection : FeatureCollection := { features := [], bbox := none }

/-- A one-feature FeatureCollection with no explicit bbox. -/
def sampleCollection : FeatureCollection :=
  { features := [sampleFeature], bbox := none }

/-- A startup deck over one slide only. -/
def deck1 : DeckState :=
  { slides := [titleSlide], currentSlideIndex := 0, overlay := []
    viewport := none, legendShown := false }

/-- A startup deck over two slides. -/
def deck2 : DeckState :=
  { slides := [titleSlide, secondSlide], currentSlideIndex := 0, overlay := []
    viewport := none, legendShown := false }

/-- A startup deck over the three slides of the page. -/
def deck3 : DeckState :=
  { slides := [titleSlide, secondSlide, thirdSlide], currentSlideIndex := 0
    overlay := [], viewport := none, legendShown := false }

/-! ### Shared unfolding lemmas -/

/-- A rejected fetch propagates out of `syncMapToSlide` before any other
statement of the function body runs. -/
lemma syncMapToSlide_error (st : DeckState) (slide : Slide) (e : JsError) :
    syncMapToSlide st slide (.error e) = .error e := rfl

/-- The successful branch of `syncMapToSlide`, written out. -/
lemma syncMapToSlide_ok (st : DeckState) (slide : Slide)
    (c : FeatureCollection) :
    syncMapToSlide st slide (.ok c) =
      .ok ({ st with
               overlay := updateDataLayer st.overlay c
               viewport := some (match c.bbox with
                 | some bbox => .bboxBounds (boundsFromBbox bbox)
                 | none => .layerBounds (updateDataLayer st.overlay c))
               legendShown := (syncLegend slide.id st.legendShown).1 },
            (syncLegend slide.id st.legendShown).2) := rfl

/-- When the current index resolves to a slide and the fetch was rejected,
`syncMapToCurrentSlide` reports the error and keeps the state it was given. -/
lemma syncMapToCurrentSlide_error (st : DeckState) (slide : Slide) (e : JsError)
    (h : getSlideAt st.slides st.currentSlideIndex = some slide) :
    syncMapToCurrentSlide st (.error e) = (st, some e) := by
  unfold syncMapToCurrentSlide
  rw [h]
  rfl

/-- `syncMapToCurrentSlide` never touches the slide list or the current
index: it only rewrites the overlay, viewport and legend fields. -/
lemma syncMapToCurrentSlide_preserves (st : DeckState)
    (fetched : Except JsError FeatureCollection) :
    (syncMapToCurrentSlide st fetched).1.slides = st.slides
    ∧ (syncMapToCurrentSlide st fetched).1.currentSlideIndex
        = st.currentSlideIndex := by
  unfold syncMapToCurrentSlide
  cases getSlideAt st.slides st.currentSlideIndex with
  | none => exact ⟨rfl, rfl⟩
  | some slide =>
    cases fetched with
    | error e => exact ⟨rfl, rfl⟩
    | ok c => exact ⟨rfl, rfl⟩

/-- After `goNextSlide`, the index equals `goNextIndex` of the old index and
the slide list is unchanged, whatever the fetch outcome was. -/
lemma goNextSlide_fst (st : DeckState)
    (fetched : Except JsError FeatureCollection) :
    (goNextSlide st fetched).1.currentSlideIndex
        = goNextIndex (st.slides.length : ℤ) st.currentSlideIndex
    ∧ (goNextSlide st fetched).1.slides = st.slides := by
  unfold goNextSlide
  have h := syncMapToCurrentSlide_preserves
    { st with currentSlideIndex :=
        goNextIndex (st.slides.length : ℤ) st.currentSlideIndex } fetched
  exact ⟨h.2, h.1⟩

/-- For an in-range index, `goNextIndex` is addition of one modulo the slide
count. -/
lemma goNextIndex_mod (n k : ℤ) (h0 : 0 ≤ k) (h1 : k < n) :
    goNextIndex n k = (k + 1) % n := by
  unfold goNextIndex
  by_cases h : k + 1 = n
  · rw [if_pos h, h, Int.emod_self]
  · rw [if_neg h, Int.emod_eq_of_lt (by omega) (by omega)]

/-- Iterating `goNextSlide` adds the number of calls to the index, modulo the
slide count, and preserves the slide list. -/
lemma runGoNext_index (fs : List (Except JsError FeatureCollection)) :
    ∀ st : DeckState, 0 ≤ st.currentSlideIndex →
      st.currentSlideIndex < (st.slides.length : ℤ) →
      (runGoNext fs st).currentSlideIndex
          = (st.currentSlideIndex + (fs.length : ℤ)) % (st.slides.length : ℤ)
      ∧ (runGoNext fs st).slides = st.slides := by
  induction fs with
  | nil =>
    intro st h0 h1
    exact ⟨by simpa using (Int.emod_eq_of_lt h0 h1).symm, rfl⟩
  | cons f fs ih =>
    intro st h0 h1
    have hg := goNextSlide_fst st f
    have hn : (0:ℤ) < (st.slides.length : ℤ) := lt_of_le_of_lt h0 h1
    have hidx : (goNextSlide st f).1.currentSlideIndex
        = (st.currentSlideIndex + 1) % (st.slides.length : ℤ) := by
      rw [hg.1, goNextIndex_mod _ _ h0 h1]
    have hb0 : 0 ≤ (goNextSlide st f).1.currentSlideIndex := by
      rw [hidx]; exact Int.emod_nonneg _ (ne_of_gt hn)
    have hb1 : (goNextSlide st f).1.currentSlideIndex
        < ((goNextSlide st f).1.slides.length : ℤ) := by
      rw [hg.2, hidx]; exact Int.emod_lt_of_pos _ hn
    obtain ⟨hi, hs⟩ := ih (goNextSlide st f).1 hb0 hb1
    refine ⟨?_, by rw [show runGoNext (f :: fs) st = runGoNext fs (goNextSlide st f).1 from rfl, hs, hg.2]⟩
    rw [show runGoNext (f :: fs) st = runGoNext fs (goNextSlide st f).1 from rfl,
        hi, hidx, hg.2, Int.emod_add_emod]
    congr 1
    simp only [List.length_cons]
    push_cast
    ring

/-! ### Claim theorems -/

/-- C1: the claimed invariant `0 ≤ index < N` fails on the code.  With one
slide pinned at the top of the page (`deck1`, index 0) and the page scrolled
far past it (`scrollY = 1000`, container offset 0, viewport height 100), no
slide has a nonnegative trigger line, the scan runs off the end, and
`calcCurrentSlideIndex` stores `i = slides.length = 1` — an out-of-range
index — instead of clamping or ignoring it; the subsequent
`syncMapToCurrentSlide` then reads `slides[1] = undefined` and throws a
TypeError. -/
theorem calcCurrentSlideIndex_stores_out_of_range :
    (calcCurrentSlideIndex deck1 1000 0 100 (.ok emptyCollection)).1.currentSlideIndex
        = (deck1.slides.length : ℤ)
    ∧ deck1.slides.length = 1
    ∧ (calcCurrentSlideIndex deck1 1000 0 100 (.ok emptyCollection)).2
        = some JsError.typeError := by
  norm_num [calcCurrentSlideIndex, calcIndexAux, syncMapToCurrentSlide,
    getSlideAt, deck1, titleSlide]

/-- C2: when the entering slide's dataset fails to resolve, `syncMapToSlide`
propagates the rejection with no rendering, and an explicit next/previous
navigation still advances the slide index while the overlay, the commanded
viewport and the legend stay exactly as they were. -/
theorem failed_resolve_no_render (st : DeckState) (slide slideP : Slide)
    (e : JsError)
    (hnext : getSlideAt st.slides
        (goNextIndex (st.slides.length : ℤ) st.currentSlideIndex) = some slide)
    (hprev : getSlideAt st.slides
        (goPrevIndex (st.slides.length : ℤ) st.currentSlideIndex) = some slideP) :
    syncMapToSlide st slide (.error e) = .error e
    ∧ (goNextSlide st (.error e)).1.overlay = st.overlay
    ∧ (goNextSlide st (.error e)).1.viewport = st.viewport
    ∧ (goNextSlide st (.error e)).1.legendShown = st.legendShown
    ∧ (goNextSlide st (.error e)).1.currentSlideIndex
        = goNextIndex (st.slides.length : ℤ) st.currentSlideIndex
    ∧ (goNextSlide st (.error e)).2 = some e
    ∧ (goPrevSlide st (.error e)).1.overlay = st.overlay
    ∧ (goPrevSlide st (.error e)).1.currentSlideIndex
        = goPrevIndex (st.slides.length : ℤ) st.currentSlideIndex
    ∧ (goPrevSlide st (.error e)).2 = some e := by
  have hN : goNextSlide st (.error e)
      = ({ st with currentSlideIndex :=
            goNextIndex (st.slides.length : ℤ) st.currentSlideIndex }, some e) :=
    syncMapToCurrentSlide_error
      { st with currentSlideIndex :=
          goNextIndex (st.slides.length : ℤ) st.currentSlideIndex } slide e hnext
  have hP : goPrevSlide st (.error e)
      = ({ st with currentSlideIndex :=
            goPrevIndex (st.slides.length : ℤ) st.currentSlideIndex }, some e) :=
    syncMapToCurrentSlide_error
      { st with currentSlideIndex :=
          goPrevIndex (st.slides.length : ℤ) st.currentSlideIndex } slideP e hprev
  rw [hN, hP]
  exact ⟨rfl, rfl, rfl, rfl, rfl, rfl, rfl, rfl, rfl⟩

/-- C2 witness: on the two-slide deck at index 0, a failed fetch leaves the
overlay empty while the index has advanced to 1 and the error is reported. -/
theorem failed_resolve_no_render_witness :
    (goNextSlide deck2 (.error .fetchError)).1.overlay = deck2.overlay
    ∧ (goNextSlide deck2 (.error .fetchError)).2 = some JsError.fetchError := by
  have h := failed_resolve_no_render deck2 secondSlide secondSlide .fetchError rfl rfl
  exact ⟨h.2.1, h.2.2.2.2.2.1⟩

/-- C3: `updateDataLayer` clears the group before adding, so a second call
leaves exactly the second dataset's features in the overlay, and any feature
of the first call that is not in the second dataset is gone. -/
theorem updateDataLayer_second_wins (dataLayer : List Feature)
    (d1 d2 : FeatureCollection) :
    updateDataLayer (updateDataLayer dataLayer d1) d2 = d2.features
    ∧ ∀ f : Feature, f ∈ updateDataLayer dataLayer d1 →
        f ∉ d2.features → f ∉ updateDataLayer (updateDataLayer dataLayer d1) d2 := by
  refine ⟨rfl, ?_⟩
  intro f _ hf2
  simpa [updateDataLayer, clearLayers] using hf2

/-- C3 witness: the feature rendered by the first call is absent after a
second call whose dataset does not contain it. -/
theorem updateDataLayer_second_wins_witness :
    sampleFeature ∉ updateDataLayer (updateDataLayer [] sampleCollection) emptyCollection :=
  (updateDataLayer_second_wins [] sampleCollection emptyCollection).2
    sampleFeature (by simp [updateDataLayer, clearLayers, sampleCollection])
    (by simp [emptyCollection])

/-- C4: the scan of `calcCurrentSlideIndex` returns the position of the first
slide in order whose trigger line `slideTop - scrollPos + windowHeight × 0.7`
is ≥ 0 (no earlier slide satisfies it), and one past the last index when no
slide satisfies it. -/
theorem calcIndex_first_trigger (slides : List Slide)
    (scrollPos windowHeight : ℚ) :
    (∃ hr : calcIndexAux scrollPos windowHeight slides < slides.length,
        (slides.get ⟨calcIndexAux scrollPos windowHeight slides, hr⟩).offsetTop
            - scrollPos + windowHeight * (7/10) ≥ 0
        ∧ ∀ j, ∀ hj : j < slides.length,
            j < calcIndexAux scrollPos windowHeight slides →
            ¬ ((slides.get ⟨j, hj⟩).offsetTop - scrollPos + windowHeight * (7/10) ≥ 0))
    ∨ (calcIndexAux scrollPos windowHeight slides = slides.length
        ∧ ∀ j, ∀ hj : j < slides.length,
            ¬ ((slides.get ⟨j, hj⟩).offsetTop - scrollPos + windowHeight * (7/10) ≥ 0)) := by
  induction slides with
  | nil =>
    right
    exact ⟨rfl, fun j hj => absurd hj (Nat.not_lt_zero j)⟩
  | cons s rest ih =>
    by_cases hc : s.offsetTop - scrollPos + windowHeight * (7/10) ≥ 0
    · left
      have hres : calcIndexAux scrollPos windowHeight (s :: rest) = 0 := by
        simp only [calcIndexAux]; rw [if_pos hc]
      refine ⟨by rw [hres]; exact Nat.succ_pos _, ?_, ?_⟩
      · simpa [hres] using hc
      · intro j hj hlt
        rw [hres] at hlt
        exact absurd hlt (Nat.not_lt_zero j)
    · have hres : calcIndexAux scrollPos windowHeight (s :: rest)
          = calcIndexAux scrollPos windowHeight rest + 1 := by
        simp only [calcIndexAux]; rw [if_neg hc]
      rcases ih with ⟨hr, hcond, hmin⟩ | ⟨heq, hall⟩
      · left
        refine ⟨by rw [hres]; simpa using Nat.succ_lt_succ hr, ?_, ?_⟩
        · have : (s :: rest).get ⟨calcIndexAux scrollPos windowHeight rest + 1,
              by simpa using Nat.succ_lt_succ hr⟩ = rest.get ⟨_, hr⟩ := rfl
          simpa [hres] using hcond
        · intro j hj hlt
          rw [hres] at hlt
          match j, hj with
          | 0, _ => exact hc
          | j + 1, hj => exact hmin j (Nat.lt_of_succ_lt_succ hj) (Nat.lt_of_succ_lt_succ hlt)
      · right
        refine ⟨by rw [hres, heq]; rfl, ?_⟩
        intro j hj
        match j, hj with
        | 0, _ => exact hc
        | j + 1, hj => exact hall j (Nat.lt_of_succ_lt_succ hj)

/-- C4 witness: on the concrete two-slide layout with no scrolling, the scan
picks an index strictly inside the slide range. -/
theorem calcIndex_first_trigger_witness :
    calcIndexAux 0 1000 [titleSlide, secondSlide] < 2 := by
  rcases calcIndex_first_trigger [titleSlide, secondSlide] 0 1000 with
    ⟨hr, -, -⟩ | ⟨-, hall⟩
  · exact hr
  · refine absurd ?_ (hall 0 (by simp))
    show ([titleSlide, secondSlide].get ⟨0, by simp⟩).offsetTop
        - 0 + 1000 * (7/10) ≥ 0
    norm_num [titleSlide]

/-- C5: the default point style picks the fill color by first-match-wins
thresholds from the highest down — `≥ 9` color A `#da2d2d`, else `≥ 8` color
B `#ff7a00`, else `≥ 7` color C `#f7fd04`, boundaries inclusive, otherwise
the neutral `#ffefcf`; a feature with no magnitude (or no properties at all)
also gets the neutral color. -/
theorem pointStyle_thresholds (feature : Feature) (props : Props) (m : ℚ) :
    (feature.properties = some props → props.magnitudo = some m →
      ((m ≥ 9 → (pointStyle feature).fillColor = "#da2d2d")
       ∧ (¬ m ≥ 9 → m ≥ 8 → (pointStyle feature).fillColor = "#ff7a00")
       ∧ (¬ m ≥ 9 → ¬ m ≥ 8 → m ≥ 7 → (pointStyle feature).fillColor = "#f7fd04")
       ∧ (¬ m ≥ 9 → ¬ m ≥ 8 → ¬ m ≥ 7 →
            (pointStyle feature).fillColor = "#ffefcf")))
    ∧ (feature.properties = some props → props.magnitudo = none →
        (pointStyle feature).fillColor = "#ffefcf")
    ∧ (feature.properties = none → (pointStyle feature).fillColor = "#ffefcf") := by
  refine ⟨?_, ?_, ?_⟩
  · intro hp hm
    refine ⟨fun h9 => ?_, fun h9 h8 => ?_, fun h9 h8 h7 => ?_,
            fun h9 h8 h7 => ?_⟩ <;>
      simp only [pointStyle, hp, hm] <;>
      first
        | rw [if_pos h9]
        | rw [if_neg h9, if_pos h8]
        | rw [if_neg h9, if_neg h8, if_pos h7]
        | rw [if_neg h9, if_neg h8, if_neg h7]
  · intro hp hm
    simp only [pointStyle, hp, hm]
  · intro hp
    simp only [pointStyle, hp]

/-- C5 witness: the sample feature of magnitude 9.5 is colored `#da2d2d`, and
the bare feature without properties is neutral. -/
theorem pointStyle_thresholds_witness :
    (pointStyle sampleFeature).fillColor = "#da2d2d"
    ∧ (pointStyle bareFeature).fillColor = "#ffefcf" :=
  ⟨((pointStyle_thresholds sampleFeature sampleProps (19/2)).1 rfl rfl).1
      (by norm_num),
   (pointStyle_thresholds bareFeature sampleProps 0).2.2 rfl⟩

/-- C6: each `goNextSlide` call advances the index by one, wrapping to 0 when
the incremented index would pass the last slide, so calling it N times from
index 0 returns the index to 0 — whatever each call's fetch outcome was. -/
theorem goNext_cycles_back (st : DeckState)
    (fs : List (Except JsError FeatureCollection))
    (h0 : st.currentSlideIndex = 0)
    (hlen : fs.length = st.slides.length)
    (hN : 1 ≤ st.slides.length) :
    (runGoNext fs st).currentSlideIndex = 0
    ∧ (∀ (st2 : DeckState) (f : Except JsError FeatureCollection),
        st2.currentSlideIndex + 1 ≠ (st2.slides.length : ℤ) →
        (goNextSlide st2 f).1.currentSlideIndex = st2.currentSlideIndex + 1)
    ∧ (∀ (st2 : DeckState) (f : Except JsError FeatureCollection),
        st2.currentSlideIndex + 1 = (st2.slides.length : ℤ) →
        (goNextSlide st2 f).1.currentSlideIndex = 0) := by
  refine ⟨?_, ?_, ?_⟩
  · have h1 : st.currentSlideIndex < (st.slides.length : ℤ) := by
      rw [h0]; exact_mod_cast hN
    obtain ⟨hi, -⟩ := runGoNext_index fs st (by rw [h0]) h1
    rw [hi, h0, hlen, zero_add, Int.emod_self]
  · intro st2 f hne
    rw [(goNextSlide_fst st2 f).1]
    unfold goNextIndex
    exact if_neg hne
  · intro st2 f heq
    rw [(goNextSlide_fst st2 f).1]
    unfold goNextIndex
    exact if_pos heq

/-- C6 witness: two `goNextSlide` calls on the two-slide deck, both with
failing fetches, bring the index back to 0. -/
theorem goNext_cycles_back_witness :
    (runGoNext [.error .fetchError, .error .fetchError] deck2).currentSlideIndex
      = 0 :=
  (goNext_cycles_back deck2 [.error .fetchError, .error .fetchError]
    rfl rfl (by simp [deck2])).1

/-- C7: with the slide positions and the viewport height fixed, the slide
index computed by the scan is monotonically non-decreasing in the scroll
offset. -/
theorem calcIndex_monotone (slides : List Slide) (windowHeight s1 s2 : ℚ)
    (h : s1 ≤ s2) :
    calcIndexAux s1 windowHeight slides ≤ calcIndexAux s2 windowHeight slides := by
  induction slides with
  | nil => exact Nat.le_refl 0
  | cons s rest ih =>
    by_cases h2 : s.offsetTop - s2 + windowHeight * (7/10) ≥ 0
    · have h1 : s.offsetTop - s1 + windowHeight * (7/10) ≥ 0 := by linarith
      simp only [calcIndexAux]
      rw [if_pos h1, if_pos h2]
    · simp only [calcIndexAux]
      rw [if_neg h2]
      by_cases h1 : s.offsetTop - s1 + windowHeight * (7/10) ≥ 0
      · rw [if_pos h1]; exact Nat.zero_le _
      · rw [if_neg h1]; exact Nat.succ_le_succ ih

/-- C7 witness: scrolling from offset 100 to offset 900 over the two-slide
layout cannot decrease the computed index. -/
theorem calcIndex_monotone_witness :
    calcIndexAux 100 500 [titleSlide, secondSlide]
      ≤ calcIndexAux 900 500 [titleSlide, secondSlide] :=
  calcIndex_monotone [titleSlide, secondSlide] 500 100 900 (by norm_num)

/-- C8: the claim fails on the code because both legend guards are dead —
`map.hasLayer` is constantly `false` for an `L.control`.  Evaluating the
embedded transition: syncing the three-slide deck to the title slide shows
the legend and issues `addTo`; repeating the same title sync issues `addTo`
again (a redundant show, so the sync is not idempotent); and syncing on to
the second slide leaves the legend still shown with no command issued (so
the legend is shown while a non-title slide is current, refuting the iff —
`removeControl` never runs). -/
theorem legend_sync_dead_guard :
    ∃ p1 p2 p3 : DeckState × List LegendAction,
      syncMapToSlide deck3 titleSlide (.ok emptyCollection) = .ok p1
      ∧ p1.1.legendShown = true
      ∧ p1.2 = [LegendAction.addTo]
      ∧ syncMapToSlide p1.1 titleSlide (.ok emptyCollection) = .ok p2
      ∧ p2.2 = [LegendAction.addTo]
      ∧ syncMapToSlide p1.1 secondSlide (.ok emptyCollection) = .ok p3
      ∧ p3.1.legendShown = true
      ∧ p3.2 = []
      ∧ secondSlide.id ≠ "title-slide" := by
  exact ⟨_, _, _, rfl, rfl, rfl, rfl, rfl, rfl, rfl, rfl, by decide⟩

/-- C9 as claimed is false: transitioning the two-slide deck to its second
slide leaves the title slide visible (`hidden = false`); the transition does
not mark the non-entering slides hidden. -/
theorem sync_hides_others_counterexample :
    ¬ (∀ (st : DeckState) (slide : Slide) (c : FeatureCollection)
          (st2 : DeckState) (acts : List LegendAction),
        syncMapToSlide st slide (.ok c) = .ok (st2, acts) →
        ∀ s ∈ st2.slides, s.id ≠ slide.id → s.hidden = true) := by
  intro hclaim
  have h := hclaim deck2 secondSlide emptyCollection _ _ rfl titleSlide
    (by simp [deck2]) (by simp [titleSlide, secondSlide])
  simp [titleSlide] at h

/-- C9 amended: a slide-sync transition leaves every slide's hidden flag
unchanged — it never calls `hideAllSlides` — while the unused
`hideAllSlides` helper, when called, marks every slide hidden, the entering
slide included. -/
theorem sync_leaves_visibility (st : DeckState) (slide : Slide)
    (fetched : Except JsError FeatureCollection) (st2 : DeckState)
    (acts : List LegendAction)
    (h : syncMapToSlide st slide fetched = .ok (st2, acts)) :
    st2.slides = st.slides
    ∧ ∀ s ∈ hideAllSlides st.slides, s.hidden = true := by
  cases fetched with
  | error e =>
    rw [syncMapToSlide_error] at h
    cases h
  | ok c =>
    rw [syncMapToSlide_ok] at h
    have hst2 : st2.slides = st.slides := by
      rw [← congrArg (fun p => Prod.fst p |>.slides) (Except.ok.inj h)]
    refine ⟨hst2, ?_⟩
    intro s hs
    simp only [hideAllSlides, List.mem_map] at hs
    obtain ⟨t, -, ht⟩ := hs
    rw [← ht]

/-- C9 amended witness: transitioning the two-slide deck to its second slide
keeps the slide list (and so every hidden flag) unchanged. -/
theorem sync_leaves_visibility_witness :
    ∃ p : DeckState × List LegendAction,
      syncMapToSlide deck2 secondSlide (.ok emptyCollection) = .ok p
      ∧ p.1.slides = deck2.slides := by
  refine ⟨_, rfl, ?_⟩
  exact (sync_leaves_visibility deck2 secondSlide (.ok emptyCollection)
    _ _ rfl).1

/-- C10: the default popup enrichment treats a falsy field as missing, not
only an absent one — a magnitude equal to 0, or an empty-string place, depth
or state, renders exactly the same placeholder text as when the property is
not present at all. -/
theorem falsy_fields_are_missing (props : Props) :
    popupContent { props with magnitudo := some 0 }
        = popupContent { props with magnitudo := none }
    ∧ popupContent { props with place := .str "" }
        = popupContent { props with place := .undef }
    ∧ popupContent { props with depth := .str "" }
        = popupContent { props with depth := .undef }
    ∧ popupContent { props with state := .str "" }
        = popupContent { props with state := .undef }
    ∧ jsOrMag (some 0) "N/A" = "N/A"
    ∧ jsOr (JSVal.str "") "Unknown Location" = "Unknown Location" := by
  refine ⟨?_, ?_, ?_, ?_, rfl, rfl⟩ <;>
    simp [popupContent, jsOr, jsOrMag, JSVal.truthy]

end StoryMap
